import Mathlib

/-!
Verification of the proximity query engine and arrival tracker of the
AudioGuideApp repository.

The embedding follows the TypeScript source:
* `src/types/index.ts` — `PointCategory`, `PointOfInterest`, `Location`;
* `src/services/PreprocessedDataService.ts` — `calculateDistance`,
  `getNearbyPoints`, `getPointsByCategory`, `getNearbyPointsByCategory`;
* `src/services/DatabaseService.ts` — `getNearbyPoints`,
  `getNearbyPointsByCategory` (filter only, no sort, no cap);
* `src/services/LocationService.ts` — the arrival tracker:
  `startLocationTracking`, `stopLocationTracking`, `checkNearbyPoints`.

Numbers are modelled as real numbers (`ℝ`); the JavaScript `Array.sort`
with comparator `(a, b) => a.distance - b.distance` is modelled as a
stable sort by non-decreasing distance (ECMAScript `Array.prototype.sort`
is specified to be stable); JavaScript `Set` is modelled as a list with
insertion-order append and membership-based deduplication.
-/

noncomputable section

namespace AudioGuide

/-- The closed set of category tags, from `src/types/index.ts`
(`PointCategory`). -/
inductive PointCategory where
  | historical
  | religious
  | children
  | nature
  | culture
  | tourism
  | architecture
  | amenity
  | leisure
  deriving DecidableEq, Repr

/-- Coordinate pair, from the `coordinates` field of `PointOfInterest`
in `src/types/index.ts`. -/
structure Coordinates where
  latitude : ℝ
  longitude : ℝ

/-- A point of interest, from `src/types/index.ts`. The source keeps both
a nested `coordinates` pair and flat `latitude`/`longitude` fields (the
latter for compatibility); both are kept here because
`PreprocessedDataService` reads `point.coordinates.*` while
`LocationService` and `DatabaseService` read `point.latitude` /
`point.longitude`. -/
structure PointOfInterest where
  id : String
  name : String
  category : PointCategory
  coordinates : Coordinates
  title : String
  description : String
  audioFilePath : String
  latitude : ℝ
  longitude : ℝ

/-- A location snapshot, from `src/types/index.ts` (`Location`). -/
structure Location where
  latitude : ℝ
  longitude : ℝ
  accuracy : Option ℝ := none
  timestamp : Option ℝ := none

/-- JavaScript `Math.atan2(y, x)`: the argument of the complex number
`x + y·i`, in `(-π, π]`, with `atan2(0, 0) = 0`. -/
def atan2 (y x : ℝ) : ℝ := Complex.arg ⟨x, y⟩

/-- The haversine distance in meters, from
`src/services/PreprocessedDataService.ts` (`calculateDistance`). The
`calculateDistance` functions in `src/services/DatabaseService.ts` and
`src/services/LocationService.ts` are textually the same formula with the
same Earth radius `R = 6371e3 = 6371000`, so all three services share this
one embedding. -/
def calculateDistance (lat1 lon1 lat2 lon2 : ℝ) : ℝ :=
  let R : ℝ := 6371000
  let dLat : ℝ := (lat2 - lat1) * Real.pi / 180
  let dLon : ℝ := (lon2 - lon1) * Real.pi / 180
  let a : ℝ := Real.sin (dLat / 2) * Real.sin (dLat / 2) +
      Real.cos (lat1 * Real.pi / 180) * Real.cos (lat2 * Real.pi / 180) *
      Real.sin (dLon / 2) * Real.sin (dLon / 2)
  let c : ℝ := 2 * atan2 (Real.sqrt a) (Real.sqrt (1 - a))
  R * c

/-- The spec's validity range for coordinates: latitude within ±90,
longitude within ±180. -/
def validLocation (lat lon : ℝ) : Prop :=
  -90 ≤ lat ∧ lat ≤ 90 ∧ -180 ≤ lon ∧ lon ≤ 180

/-- The comparator of the JavaScript sort
`(a, b) => a.distance - b.distance`, as the non-strict order on the
distance component of a `(point, distance)` pair. -/
def byDistance (x y : PointOfInterest × ℝ) : Prop := x.2 ≤ y.2

instance : DecidableRel byDistance := fun x y => Real.decidableLE x.2 y.2

instance : IsTotal (PointOfInterest × ℝ) byDistance :=
  ⟨fun x y => le_total x.2 y.2⟩

instance : IsTrans (PointOfInterest × ℝ) byDistance :=
  ⟨fun _ _ _ h h2 => le_trans h h2⟩

namespace PreprocessedDataService

/-- Embedding of `getPointsByCategory` from `src/services/PreprocessedDataService.ts`
(lines 82-92): filter the full point list by category. The catalog
`allPoints` held by the service singleton is passed explicitly. -/
def getPointsByCategory (allPoints : List PointOfInterest)
    (category : PointCategory) : List PointOfInterest :=
  allPoints.filter (fun point => decide (point.category = category))

/-- Embedding of `getNearbyPoints` from `src/services/PreprocessedDataService.ts`
(lines 104-114): pair each point with its haversine distance to the
query location, keep the pairs within the radius, sort ascending by
distance (stable, per ECMAScript `Array.prototype.sort`), keep the
first 50, and project the points back out. -/
def getNearbyPoints (allPoints : List PointOfInterest)
    (latitude longitude radiusInMeters : ℝ) : List PointOfInterest :=
  ((((allPoints.map (fun point =>
        (point, calculateDistance latitude longitude
          point.coordinates.latitude point.coordinates.longitude))).filter
      (fun x => decide (x.2 ≤ radiusInMeters))).insertionSort
        byDistance).take 50).map Prod.fst

/-- Embedding of `getNearbyPointsByCategory` from
`src/services/PreprocessedDataService.ts` (lines 119-136): the same
pipeline started from the category bucket, capped at 30. -/
def getNearbyPointsByCategory (allPoints : List PointOfInterest)
    (latitude longitude : ℝ) (category : PointCategory)
    (radiusInMeters : ℝ) : List PointOfInterest :=
  ((((getPointsByCategory allPoints category).map (fun point =>
        (point, calculateDistance latitude longitude
          point.coordinates.latitude point.coordinates.longitude))).filter
      (fun x => decide (x.2 ≤ radiusInMeters))).insertionSort
        byDistance).take 30 |>.map Prod.fst

end PreprocessedDataService

namespace DatabaseService

/-- Embedding of `getNearbyPoints` from `src/services/DatabaseService.ts`
(lines 267-287): all points whose haversine distance to the query
location is within the radius, in catalog order (no sort, no cap).
The rows of the `points_of_interest` table are passed as `allPoints`;
this service reads the flat `latitude`/`longitude` columns. -/
def getNearbyPoints (allPoints : List PointOfInterest)
    (latitude longitude radiusInMeters : ℝ) : List PointOfInterest :=
  allPoints.filter (fun point =>
    decide (calculateDistance latitude longitude
      point.latitude point.longitude ≤ radiusInMeters))

/-- Embedding of `getNearbyPointsByCategory` from `src/services/DatabaseService.ts`
(lines 296-317): first the SQL category filter, then the distance
filter. -/
def getNearbyPointsByCategory (allPoints : List PointOfInterest)
    (latitude longitude : ℝ) (category : PointCategory)
    (radiusInMeters : ℝ) : List PointOfInterest :=
  (allPoints.filter (fun point => decide (point.category = category))).filter
    (fun point =>
      decide (calculateDistance latitude longitude
        point.latitude point.longitude ≤ radiusInMeters))

end DatabaseService

namespace LocationService

/-- The `for (const point of nearbyPoints)` loop of `checkNearbyPoints`
in `src/services/LocationService.ts` (lines 101-107): walk the nearby
points in order; a point whose id is not yet in the triggered set is
added to the set (JavaScript `Set.add` appends in insertion order) and
fired as an arrival event. Returns the grown triggered set and the
fired events in order. -/
def fireLoop (triggered : List String) :
    List PointOfInterest → List String × List PointOfInterest
  | [] => (triggered, [])
  | point :: rest =>
    if point.id ∈ triggered then fireLoop triggered rest
    else
      let next := fireLoop (triggered ++ [point.id]) rest
      (next.1, point :: next.2)

/-- One full run of `checkNearbyPoints` past its guard
(`src/services/LocationService.ts` lines 84-115): filter the catalog to
the points within 1000 m of the current location, fire the not yet
triggered ones, then drop from the triggered set every id that is no
longer nearby (the re-arm loop of lines 110-115). Returns the new
triggered set and the fired events. -/
def checkStep (allPoints : List PointOfInterest) (lat lon : ℝ)
    (triggered : List String) : List String × List PointOfInterest :=
  let nearbyPoints := allPoints.filter (fun point =>
    decide (calculateDistance lat lon point.latitude point.longitude ≤ 1000))
  let fired := fireLoop triggered nearbyPoints
  let nearbyPointIds := nearbyPoints.map (fun p => p.id)
  (fired.1.filter (fun id => decide (id ∈ nearbyPointIds)), fired.2)

/-- The mutable fields of the `LocationService` singleton that the
arrival tracker touches: `isTracking`, the presence of
`onNearbyPointCallback`, `currentLocation`, and `triggeredPoints`. -/
structure State where
  isTracking : Bool
  hasCallback : Bool
  currentLocation : Option Location
  triggeredPoints : List String

/-- Embedding of `startLocationTracking` (lines 42-48): a no-op while already
tracking; otherwise installs the callback, sets the tracking flag and
clears the triggered set. (The subscription itself is platform glue.) -/
def startLocationTracking (s : State) : State :=
  if s.isTracking then s
  else { s with hasCallback := true, isTracking := true, triggeredPoints := [] }

/-- Embedding of `stopLocationTracking` (lines 68-75): removes the subscription,
resets the tracking flag and the callback. `triggeredPoints` is left
untouched. -/
def stopLocationTracking (s : State) : State :=
  { s with isTracking := false, hasCallback := false }

/-- Embedding of `checkNearbyPoints` (lines 77-119) including its guard: with no
current location or no callback it returns immediately, changing
nothing and firing nothing; otherwise it runs `checkStep` on the
catalog (`getAllPoints()` from the database, passed as `allPoints`). -/
def checkNearbyPoints (allPoints : List PointOfInterest) (s : State) :
    State × List PointOfInterest :=
  match s.currentLocation, s.hasCallback with
  | some loc, true =>
    let r := checkStep allPoints loc.latitude loc.longitude s.triggeredPoints
    ({ s with triggeredPoints := r.1 }, r.2)
  | _, _ => (s, [])

/-- The body of the `watchPositionAsync` callback (lines 55-64): store
the received location snapshot in `currentLocation`, then run
`checkNearbyPoints`. -/
def onLocationUpdate (allPoints : List PointOfInterest) (s : State)
    (loc : Location) : State × List PointOfInterest :=
  checkNearbyPoints allPoints { s with currentLocation := some loc }

/-- Feeding a sequence of `(latitude, longitude)` updates through
`checkStep`, collecting the arrival events fired at each update. -/
def runSteps (allPoints : List PointOfInterest) :
    List String → List (ℝ × ℝ) → List (List PointOfInterest)
  | _, [] => []
  | triggered, l :: rest =>
    let r := checkStep allPoints l.1 l.2 triggered
    r.2 :: runSteps allPoints r.1 rest

/-- Distance from a raw `(latitude, longitude)` update to a point is
within the fixed 1000 m arrival radius of `checkNearbyPoints`. -/
def withinArrival (l : ℝ × ℝ) (point : PointOfInterest) : Prop :=
  calculateDistance l.1 l.2 point.latitude point.longitude ≤ 1000

end LocationService

/-! ### Concrete sample points for witnesses and counterexamples -/

/-- A sample `historical` point with identifier `"a"` at `(32, 35)`. -/
def pA : PointOfInterest :=
  ⟨"a", "A", .historical, ⟨32, 35⟩, "A", "", "", 32, 35⟩

/-- A sample `nature` point with identifier `"b"`, also at `(32, 35)`. -/
def pB : PointOfInterest :=
  ⟨"b", "B", .nature, ⟨32, 35⟩, "B", "", "", 32, 35⟩

/-- A point whose latitude `200` is outside the valid ±90 range. -/
def pOut : PointOfInterest :=
  ⟨"p", "P", .historical, ⟨200, 0⟩, "P", "", "", 200, 0⟩

/-! ### Distance lemmas -/

lemma atan2_zero_one : atan2 0 1 = 0 := by
  have h : (⟨1, 0⟩ : ℂ) = 1 := by
    apply Complex.ext <;> simp
  simp [atan2, h]

/-- If the haversine intermediate `a` vanishes, the distance is `0`. -/
lemma calculateDistance_eq_zero_of_a_eq_zero (lat1 lon1 lat2 lon2 : ℝ)
    (h : Real.sin ((lat2 - lat1) * Real.pi / 180 / 2) *
        Real.sin ((lat2 - lat1) * Real.pi / 180 / 2) +
        Real.cos (lat1 * Real.pi / 180) * Real.cos (lat2 * Real.pi / 180) *
        Real.sin ((lon2 - lon1) * Real.pi / 180 / 2) *
        Real.sin ((lon2 - lon1) * Real.pi / 180 / 2) = 0) :
    calculateDistance lat1 lon1 lat2 lon2 = 0 := by
  simp only [calculateDistance]
  rw [h]
  simp [atan2_zero_one]

/-- The diagonal value `distance(A, A) = 0` for any coordinates, range-valid or not. -/
lemma calculateDistance_self (lat lon : ℝ) :
    calculateDistance lat lon lat lon = 0 := by
  apply calculateDistance_eq_zero_of_a_eq_zero
  simp

/-- The haversine distance is non-negative for all inputs: the `atan2`
call is applied to a non-negative second coordinate. -/
lemma calculateDistance_nonneg (lat1 lon1 lat2 lon2 : ℝ) :
    0 ≤ calculateDistance lat1 lon1 lat2 lon2 := by
  simp only [calculateDistance, atan2]
  refine mul_nonneg (by norm_num) (mul_nonneg (by norm_num) ?_)
  exact Complex.arg_nonneg_iff.mpr (Real.sqrt_nonneg _)

/-- At the north pole the haversine distance between two points with
different longitudes vanishes: both summands of the intermediate `a`
are zero (`Δφ = 0` and `cos 90° = 0`). -/
lemma calculateDistance_pole (lon1 lon2 : ℝ) :
    calculateDistance 90 lon1 90 lon2 = 0 := by
  apply calculateDistance_eq_zero_of_a_eq_zero
  have h90 : (90 : ℝ) * Real.pi / 180 = Real.pi / 2 := by ring
  simp [h90, Real.cos_pi_div_two]

/-! ### Arrival-tracker lemmas -/

/-- Membership in the triggered set grown by the fire loop: an id is
there iff it was there before or belongs to a walked point. -/
lemma fireLoop_fst_mem (ps : List PointOfInterest) :
    ∀ (trig : List String) (id : String),
      id ∈ (LocationService.fireLoop trig ps).1 ↔
        id ∈ trig ∨ ∃ p ∈ ps, p.id = id := by
  induction ps with
  | nil => intro trig id; simp [LocationService.fireLoop]
  | cons p ps ih =>
    intro trig id
    by_cases h : p.id ∈ trig
    · rw [LocationService.fireLoop, if_pos h, ih]
      constructor
      · rintro (h1 | ⟨q, hq, rfl⟩)
        · exact Or.inl h1
        · exact Or.inr ⟨q, List.mem_cons_of_mem _ hq, rfl⟩
      · rintro (h1 | ⟨q, hq, rfl⟩)
        · exact Or.inl h1
        · rcases List.mem_cons.1 hq with rfl | hq2
          · exact Or.inl h
          · exact Or.inr ⟨q, hq2, rfl⟩
    · rw [LocationService.fireLoop, if_neg h]
      simp only [ih, List.mem_append, List.mem_singleton]
      constructor
      · rintro ((h1 | h1) | ⟨q, hq, rfl⟩)
        · exact Or.inl h1
        · exact Or.inr ⟨p, List.mem_cons_self p ps, h1.symm⟩
        · exact Or.inr ⟨q, List.mem_cons_of_mem _ hq, rfl⟩
      · rintro (h1 | ⟨q, hq, rfl⟩)
        · exact Or.inl (Or.inl h1)
        · rcases List.mem_cons.1 hq with rfl | hq2
          · exact Or.inl (Or.inr rfl)
          · exact Or.inr ⟨q, hq2, rfl⟩

/-- Events fired by the fire loop over a duplicate-free point list: a
point fires iff it is walked and was not yet triggered. -/
lemma fireLoop_snd_mem (ps : List PointOfInterest)
    (huniq : ps.Pairwise (fun a b => a.id ≠ b.id)) :
    ∀ (trig : List String) (q : PointOfInterest),
      q ∈ (LocationService.fireLoop trig ps).2 ↔
        q ∈ ps ∧ q.id ∉ trig := by
  induction ps with
  | nil => intro trig q; simp [LocationService.fireLoop]
  | cons p ps ih =>
    rw [List.pairwise_cons] at huniq
    intro trig q
    by_cases h : p.id ∈ trig
    · rw [LocationService.fireLoop, if_pos h, ih huniq.2]
      constructor
      · rintro ⟨h1, h2⟩
        exact ⟨List.mem_cons_of_mem _ h1, h2⟩
      · rintro ⟨h1, h2⟩
        rcases List.mem_cons.1 h1 with rfl | h3
        · exact absurd h h2
        · exact ⟨h3, h2⟩
    · rw [LocationService.fireLoop, if_neg h]
      simp only [List.mem_cons, ih huniq.2]
      constructor
      · rintro (rfl | ⟨h1, h2⟩)
        · exact ⟨Or.inl rfl, h⟩
        · exact ⟨Or.inr h1, fun hc => h2 (List.mem_append.2 (Or.inl hc))⟩
      · rintro ⟨rfl | h1, h2⟩
        · exact Or.inl rfl
        · refine Or.inr ⟨h1, fun hc => ?_⟩
          rcases List.mem_append.1 hc with hc2 | hc2
          · exact h2 hc2
          · exact huniq.1 q h1 (List.mem_singleton.1 hc2).symm

/-- If every walked point is already triggered, the fire loop is the
identity and fires nothing. -/
lemma fireLoop_of_all_triggered (ps : List PointOfInterest) :
    ∀ trig : List String, (∀ p ∈ ps, p.id ∈ trig) →
      LocationService.fireLoop trig ps = (trig, []) := by
  induction ps with
  | nil => intro trig _; rfl
  | cons p ps ih =>
    intro trig hall
    rw [LocationService.fireLoop, if_pos (hall p (List.mem_cons_self p ps))]
    exact ih trig (fun q hq => hall q (List.mem_cons_of_mem _ hq))

/-- The triggered set after one `checkStep` holds exactly the ids of
the catalog points within 1000 m of the processed location — whatever
the set held before. -/
lemma checkStep_fst_mem (pts : List PointOfInterest) (lat lon : ℝ)
    (trig : List String) (id : String) :
    id ∈ (LocationService.checkStep pts lat lon trig).1 ↔
      ∃ p ∈ pts, p.id = id ∧
        calculateDistance lat lon p.latitude p.longitude ≤ 1000 := by
  simp only [LocationService.checkStep]
  rw [List.mem_filter]
  constructor
  · rintro ⟨h1, h2⟩
    rw [decide_eq_true_eq] at h2
    obtain ⟨p, hp, rfl⟩ := List.mem_map.1 h2
    rw [List.mem_filter] at hp
    exact ⟨p, hp.1, rfl, of_decide_eq_true hp.2⟩
  · rintro ⟨p, hp, rfl, hd⟩
    have hnear : p ∈ pts.filter (fun point =>
        decide (calculateDistance lat lon
          point.latitude point.longitude ≤ 1000)) :=
      List.mem_filter.2 ⟨hp, decide_eq_true hd⟩
    refine ⟨(fireLoop_fst_mem _ _ _).2 (Or.inr ⟨p, hnear, rfl⟩), ?_⟩
    exact decide_eq_true (List.mem_map_of_mem _ hnear)

/-- The events of one `checkStep` over a duplicate-free catalog: a
point fires iff it is within 1000 m and was not triggered before. -/
lemma checkStep_snd_mem (pts : List PointOfInterest)
    (huniq : pts.Pairwise (fun a b => a.id ≠ b.id)) (lat lon : ℝ)
    (trig : List String) (q : PointOfInterest) :
    q ∈ (LocationService.checkStep pts lat lon trig).2 ↔
      q ∈ pts ∧ calculateDistance lat lon q.latitude q.longitude ≤ 1000 ∧
        q.id ∉ trig := by
  simp only [LocationService.checkStep]
  rw [fireLoop_snd_mem _ (huniq.sublist (List.filter_sublist _)) trig q]
  rw [List.mem_filter]
  constructor
  · rintro ⟨⟨h1, h2⟩, h3⟩
    exact ⟨h1, of_decide_eq_true h2, h3⟩
  · rintro ⟨h1, h2, h3⟩
    exact ⟨⟨h1, decide_eq_true h2⟩, h3⟩

/-- Processing the same location twice in a row changes nothing and
fires nothing the second time. -/
lemma checkStep_idem (pts : List PointOfInterest) (lat lon : ℝ)
    (trig : List String) :
    LocationService.checkStep pts lat lon
        (LocationService.checkStep pts lat lon trig).1 =
      ((LocationService.checkStep pts lat lon trig).1, []) := by
  simp only [LocationService.checkStep]
  have hall : ∀ p ∈ pts.filter (fun point =>
      decide (calculateDistance lat lon
        point.latitude point.longitude ≤ 1000)),
      p.id ∈ (LocationService.fireLoop trig (pts.filter (fun point =>
        decide (calculateDistance lat lon
          point.latitude point.longitude ≤ 1000)))).1.filter
        (fun id => decide (id ∈ (pts.filter (fun point =>
          decide (calculateDistance lat lon
            point.latitude point.longitude ≤ 1000))).map
          (fun p => p.id))) := by
    intro p hp
    rw [List.mem_filter]
    refine ⟨(fireLoop_fst_mem _ _ _).2 (Or.inr ⟨p, hp, rfl⟩), ?_⟩
    exact decide_eq_true (List.mem_map_of_mem _ hp)
  rw [fireLoop_of_all_triggered _ _ hall]
  refine Prod.ext ?_ rfl
  simp only
  rw [List.filter_eq_self]
  intro a ha
  exact (List.mem_filter.1 ha).2

/-- With a duplicate-free catalog two points sharing an id coincide. -/
lemma eq_of_id_eq {pts : List PointOfInterest}
    (huniq : pts.Pairwise (fun a b => a.id ≠ b.id))
    {p q : PointOfInterest} (hp : p ∈ pts) (hq : q ∈ pts)
    (h : q.id = p.id) : q = p := by
  by_contra hne
  have hsymm : Symmetric (fun a b : PointOfInterest => a.id ≠ b.id) :=
    fun a b hab => Ne.symm hab
  exact (huniq.forall hsymm hq hp hne) h

/-- Event characterization along a run of location updates: starting
from triggered set `trig`, the point `p` fires at step `i` iff it is
within the arrival radius at step `i` and — for `i = 0` — was not in
`trig`, or — for `i > 0` — was outside the radius at step `i - 1`. -/
lemma runSteps_events_char (pts : List PointOfInterest)
    (huniq : pts.Pairwise (fun a b => a.id ≠ b.id)) :
    ∀ (locs : List (ℝ × ℝ)) (trig : List String) (i : ℕ),
      i < locs.length → ∀ p ∈ pts,
      (p ∈ (LocationService.runSteps pts trig locs).getD i [] ↔
        LocationService.withinArrival (locs.getD i (0, 0)) p ∧
          (if i = 0 then p.id ∉ trig
            else ¬ LocationService.withinArrival
              (locs.getD (i - 1) (0, 0)) p)) := by
  intro locs
  induction locs with
  | nil => intro trig i hi; simp at hi
  | cons l ls ih =>
    intro trig i hi p hp
    match i with
    | 0 =>
      simp only [LocationService.runSteps, List.getD_cons_zero,
        if_pos rfl]
      rw [checkStep_snd_mem pts huniq l.1 l.2 trig p]
      simp [LocationService.withinArrival, hp]
    | Nat.succ j =>
      simp only [LocationService.runSteps, List.getD_cons_succ]
      have hj : j < ls.length := by simpa using hi
      rw [ih (LocationService.checkStep pts l.1 l.2 trig).1 j hj p hp]
      rw [if_neg (Nat.succ_ne_zero j)]
      match j with
      | 0 =>
        rw [if_pos rfl]
        simp only [Nat.succ_sub_one, List.getD_cons_zero]
        have hiff : p.id ∈ (LocationService.checkStep pts l.1 l.2 trig).1
            ↔ LocationService.withinArrival l p := by
          rw [checkStep_fst_mem]
          constructor
          · rintro ⟨q, hq, hid, hd⟩
            rw [eq_of_id_eq huniq hp hq hid] at hd
            exact hd
          · intro hd
            exact ⟨p, hp, rfl, hd⟩
        constructor
        · rintro ⟨hw, hnt⟩
          exact ⟨hw, fun hc => hnt (hiff.2 hc)⟩
        · rintro ⟨hw, hnw⟩
          exact ⟨hw, fun hc => hnw (hiff.1 hc)⟩
      | Nat.succ k =>
        rw [if_neg (Nat.succ_ne_zero k)]
        simp only [Nat.succ_sub_one, List.getD_cons_succ]

/-! ### Pipeline lemmas shared by the query theorems -/

/-- A point in the sort/take/project tail of the query pipeline came
from the pair list the pipeline was started on. -/
lemma mem_of_mem_pipeline {s : List (PointOfInterest × ℝ)} {n : ℕ}
    {p : PointOfInterest}
    (hp : p ∈ ((s.insertionSort byDistance).take n).map Prod.fst) :
    ∃ d : ℝ, (p, d) ∈ s := by
  obtain ⟨x, hx, hxp⟩ := List.mem_map.1 hp
  refine ⟨x.2, ?_⟩
  have hxs : x ∈ s :=
    (List.perm_insertionSort byDistance s).subset (List.take_subset _ _ hx)
  rw [← hxp]
  exact hxs

/-- If every pair of `s` carries the distance of its point, the
projected output of the pipeline is pairwise non-decreasing in that
distance. -/
lemma pairwise_pipeline {s : List (PointOfInterest × ℝ)} {n : ℕ}
    {f : PointOfInterest → ℝ} (hs : ∀ x ∈ s, x.2 = f x.1) :
    ((((s.insertionSort byDistance).take n).map Prod.fst).Pairwise
      (fun p q => f p ≤ f q)) := by
  rw [List.pairwise_map]
  have hsorted : List.Sorted byDistance (s.insertionSort byDistance) :=
    List.sorted_insertionSort byDistance s
  have htake : ((s.insertionSort byDistance).take n).Pairwise byDistance :=
    hsorted.sublist (List.take_sublist n _)
  refine htake.imp_of_mem ?_
  intro a b ha hb hab
  have has : a ∈ s :=
    (List.perm_insertionSort byDistance s).subset (List.take_subset _ _ ha)
  have hbs : b ∈ s :=
    (List.perm_insertionSort byDistance s).subset (List.take_subset _ _ hb)
  have h1 := hs a has
  have h2 := hs b hbs
  simpa [byDistance, h1, h2] using hab

/-- Every pair produced by the distance-tagging `map` step carries the
distance of its point. -/
lemma snd_eq_of_mem_tagged {l : List PointOfInterest} {lat lon : ℝ}
    {x : PointOfInterest × ℝ}
    (hx : x ∈ l.map (fun point =>
      (point, calculateDistance lat lon
        point.coordinates.latitude point.coordinates.longitude))) :
    x.2 = calculateDistance lat lon
      x.1.coordinates.latitude x.1.coordinates.longitude := by
  obtain ⟨q, _, rfl⟩ := List.mem_map.1 hx
  rfl

/-- A pair surviving the radius filter of the pipeline is a tagged pair
of a catalog point, within the radius. -/
lemma of_mem_filtered {l : List PointOfInterest} {lat lon r : ℝ}
    {x : PointOfInterest × ℝ}
    (hx : x ∈ (l.map (fun point =>
        (point, calculateDistance lat lon
          point.coordinates.latitude point.coordinates.longitude))).filter
      (fun y => decide (y.2 ≤ r))) :
    x.1 ∈ l ∧ x.2 = calculateDistance lat lon
        x.1.coordinates.latitude x.1.coordinates.longitude ∧ x.2 ≤ r := by
  rw [List.mem_filter] at hx
  obtain ⟨hmem, hle⟩ := hx
  rw [decide_eq_true_eq] at hle
  refine ⟨?_, snd_eq_of_mem_tagged hmem, hle⟩
  obtain ⟨q, hq, rfl⟩ := List.mem_map.1 hmem
  exact hq

/-! ### C1, C2, C6, C7, C8, C9, C10 -/

/-- C1. Radius containment: every point returned by
`PreprocessedDataService.getNearbyPoints` (and by
`DatabaseService.getNearbyPoints`) for a valid location and positive
radius lies within haversine distance `r` of the query location;
candidates farther than `r` are discarded by the filter. -/
theorem radius_containment (allPoints : List PointOfInterest)
    (lat lon r : ℝ) (hv : validLocation lat lon) (hr : 0 < r) :
    (∀ p ∈ PreprocessedDataService.getNearbyPoints allPoints lat lon r,
      calculateDistance lat lon
        p.coordinates.latitude p.coordinates.longitude ≤ r) ∧
    (∀ p ∈ DatabaseService.getNearbyPoints allPoints lat lon r,
      calculateDistance lat lon p.latitude p.longitude ≤ r) := by
  constructor
  · intro p hp
    obtain ⟨d, hd⟩ := mem_of_mem_pipeline hp
    obtain ⟨-, heq, hle⟩ := of_mem_filtered hd
    simpa [← heq] using hle
  · intro p hp
    rw [DatabaseService.getNearbyPoints, List.mem_filter] at hp
    exact of_decide_eq_true hp.2

/-- Witness for C1 at the concrete query `(32, 35)`, radius 100. -/
theorem radius_containment_witness :
    validLocation 32 35 ∧ (0 : ℝ) < 100 ∧
    ((∀ p ∈ PreprocessedDataService.getNearbyPoints [] 32 35 100,
        calculateDistance 32 35
          p.coordinates.latitude p.coordinates.longitude ≤ 100) ∧
      (∀ p ∈ DatabaseService.getNearbyPoints [] 32 35 100,
        calculateDistance 32 35 p.latitude p.longitude ≤ 100)) :=
  ⟨by norm_num [validLocation], by norm_num,
    radius_containment [] 32 35 100 (by norm_num [validLocation])
      (by norm_num)⟩

/-- C2 (amended). The sequences returned by
`PreprocessedDataService.getNearbyPoints` and
`PreprocessedDataService.getNearbyPointsByCategory` are pairwise
non-decreasing in haversine distance from the query location. (Ties
keep the relative candidate order of the catalog — the sort is stable —
rather than following point identifiers; the output is a deterministic
function of catalog and query.) -/
theorem nearby_sorted_by_distance (allPoints : List PointOfInterest)
    (lat lon r : ℝ) (c : PointCategory) :
    ((PreprocessedDataService.getNearbyPoints allPoints lat lon r).Pairwise
      (fun p q => calculateDistance lat lon
          p.coordinates.latitude p.coordinates.longitude ≤
        calculateDistance lat lon
          q.coordinates.latitude q.coordinates.longitude)) ∧
    ((PreprocessedDataService.getNearbyPointsByCategory
        allPoints lat lon c r).Pairwise
      (fun p q => calculateDistance lat lon
          p.coordinates.latitude p.coordinates.longitude ≤
        calculateDistance lat lon
          q.coordinates.latitude q.coordinates.longitude)) := by
  constructor
  · exact pairwise_pipeline (fun x hx => (of_mem_filtered hx).2.1)
  · exact pairwise_pipeline (fun x hx => (of_mem_filtered hx).2.1)

/-- C6 (amended). The result caps of the two nearby queries hold with
the code's fixed constants: `getNearbyPoints` returns at most 50 points
and `getNearbyPointsByCategory` at most 30, the truncation being
applied after sorting. (There is no caller-supplied `maxResults`.) -/
theorem fixed_caps_respected (allPoints : List PointOfInterest)
    (lat lon r : ℝ) (c : PointCategory) :
    (PreprocessedDataService.getNearbyPoints allPoints lat lon r).length
      ≤ 50 ∧
    (PreprocessedDataService.getNearbyPointsByCategory
      allPoints lat lon c r).length ≤ 30 := by
  constructor
  · simpa [PreprocessedDataService.getNearbyPoints]
      using List.length_take_le 50 _
  · simpa [PreprocessedDataService.getNearbyPointsByCategory]
      using List.length_take_le 30 _

/-- C7 (amended). The haversine `calculateDistance` is non-negative on
all inputs and vanishes on equal coordinates. (The converse — zero only
on equal coordinates — fails; see the pole counterexample.) -/
theorem distance_nonneg_and_diag_zero :
    (∀ lat1 lon1 lat2 lon2 : ℝ,
      0 ≤ calculateDistance lat1 lon1 lat2 lon2) ∧
    (∀ lat lon : ℝ, calculateDistance lat lon lat lon = 0) :=
  ⟨calculateDistance_nonneg, calculateDistance_self⟩

/-- C7 counterexample. Two range-valid points at the north pole whose
longitudes differ (`0 < 90`) are at `calculateDistance` zero, so zero
distance does not imply equal coordinates. -/
theorem distance_zero_at_pole_distinct :
    calculateDistance 90 0 90 90 = 0 ∧
    validLocation 90 0 ∧ validLocation 90 90 ∧ (0 : ℝ) < 90 :=
  ⟨calculateDistance_pole 0 90, by norm_num [validLocation],
    by norm_num [validLocation], by norm_num⟩

/-- C8. Category purity: with a category filter `c`, every point
returned by `PreprocessedDataService.getNearbyPointsByCategory`,
`PreprocessedDataService.getPointsByCategory`, and
`DatabaseService.getNearbyPointsByCategory` has category `c`. -/
theorem category_purity (allPoints : List PointOfInterest)
    (lat lon r : ℝ) (c : PointCategory) :
    (∀ p ∈ PreprocessedDataService.getNearbyPointsByCategory
        allPoints lat lon c r, p.category = c) ∧
    (∀ p ∈ PreprocessedDataService.getPointsByCategory allPoints c,
      p.category = c) ∧
    (∀ p ∈ DatabaseService.getNearbyPointsByCategory
        allPoints lat lon c r, p.category = c) := by
  refine ⟨?_, ?_, ?_⟩
  · intro p hp
    obtain ⟨d, hd⟩ := mem_of_mem_pipeline hp
    have hmem := (of_mem_filtered hd).1
    rw [PreprocessedDataService.getPointsByCategory, List.mem_filter] at hmem
    exact of_decide_eq_true hmem.2
  · intro p hp
    rw [PreprocessedDataService.getPointsByCategory, List.mem_filter] at hp
    exact of_decide_eq_true hp.2
  · intro p hp
    rw [DatabaseService.getNearbyPointsByCategory, List.mem_filter] at hp
    have hmem := hp.1
    rw [List.mem_filter] at hmem
    exact of_decide_eq_true hmem.2

/-- Witness for C8 on the empty catalog with category `nature`. -/
theorem category_purity_witness :
    (∀ p ∈ PreprocessedDataService.getNearbyPointsByCategory
        [] 32 35 PointCategory.nature 100, p.category = .nature) ∧
    (∀ p ∈ PreprocessedDataService.getPointsByCategory
        [] PointCategory.nature, p.category = .nature) ∧
    (∀ p ∈ DatabaseService.getNearbyPointsByCategory
        [] 32 35 PointCategory.nature 100, p.category = .nature) :=
  category_purity [] 32 35 100 PointCategory.nature

/-- C9. An empty result is not an error: on an empty (or not yet
loaded) catalog both queries return the empty list, and a category
filter matching no catalog point also yields the empty list; all query
functions are total. -/
theorem empty_result_not_error :
    (∀ lat lon r : ℝ,
      PreprocessedDataService.getNearbyPoints [] lat lon r = []) ∧
    (∀ (lat lon r : ℝ) (c : PointCategory),
      PreprocessedDataService.getNearbyPointsByCategory [] lat lon c r
        = []) ∧
    (∀ (allPoints : List PointOfInterest) (lat lon r : ℝ)
        (c : PointCategory), (∀ p ∈ allPoints, p.category ≠ c) →
      PreprocessedDataService.getNearbyPointsByCategory
        allPoints lat lon c r = []) := by
  refine ⟨fun lat lon r => rfl, fun lat lon r c => rfl, ?_⟩
  intro allPoints lat lon r c hall
  have hempty : PreprocessedDataService.getPointsByCategory allPoints c
      = [] := by
    rw [PreprocessedDataService.getPointsByCategory]
    rw [List.filter_eq_nil_iff]
    intro p hp
    simpa using hall p hp
  rw [PreprocessedDataService.getNearbyPointsByCategory, hempty]
  rfl

/-- Concrete run of the nearby query on the two-point catalog
`[pB, pA]`, both points at the query location `(32, 35)`: both
distances are `0`, the stable sort keeps the catalog order, and the
result is `[pB, pA]`. -/
lemma getNearbyPoints_two_ties :
    PreprocessedDataService.getNearbyPoints [pB, pA] 32 35 100
      = [pB, pA] := by
  norm_num [PreprocessedDataService.getNearbyPoints, pA, pB,
    calculateDistance_self, byDistance, List.filter_cons]

/-- The same tied query on the reversed catalog `[pA, pB]`: the result
again keeps the catalog order. -/
lemma getNearbyPoints_two_ties_rev :
    PreprocessedDataService.getNearbyPoints [pA, pB] 32 35 100
      = [pA, pB] := by
  norm_num [PreprocessedDataService.getNearbyPoints, pA, pB,
    calculateDistance_self, byDistance, List.filter_cons]

/-- C2 counterexample. Both catalog points sit exactly at the query
location, so their distances are equal; yet the relative order of the
two tied results flips with the catalog order (`[pB, pA]` versus
`[pA, pB]`) while their distinct identifiers `"b"`, `"a"` are unchanged: the
order of equal-distance results is the (stable) catalog order, NOT an
order determined by point identifier. -/
theorem tie_order_not_by_identifier :
    PreprocessedDataService.getNearbyPoints [pB, pA] 32 35 100
        = [pB, pA] ∧
    PreprocessedDataService.getNearbyPoints [pA, pB] 32 35 100
        = [pA, pB] ∧
    pA.id = "a" ∧ pB.id = "b" ∧
    calculateDistance 32 35
        pB.coordinates.latitude pB.coordinates.longitude =
      calculateDistance 32 35
        pA.coordinates.latitude pA.coordinates.longitude := by
  refine ⟨getNearbyPoints_two_ties, getNearbyPoints_two_ties_rev,
    rfl, rfl, ?_⟩
  simp [pA, pB]

/-- C6 counterexample. `getNearbyPoints` has no caller-supplied
`maxResults`: a caller wanting a cap of `N = 1` still receives 2 points
on the catalog `[pB, pA]` with both points in radius
(`2 > 1`), so `len(queryNearby(..., maxResults = 1)) ≤ 1` fails on the
code. -/
theorem caller_cap_not_honored :
    (PreprocessedDataService.getNearbyPoints
        [pB, pA] 32 35 100).length = 2 := by
  rw [getNearbyPoints_two_ties]
  rfl

/-- C10. Implicit fixed result caps: `getNearbyPoints` always returns
at most 50 points and `getNearbyPointsByCategory` at most 30; the cap
binds regardless of how many catalog points lie within the radius — a
catalog of 51 in-radius points yields exactly 50 results. -/
theorem implicit_fixed_caps :
    (∀ (allPoints : List PointOfInterest) (lat lon r : ℝ),
      (PreprocessedDataService.getNearbyPoints
        allPoints lat lon r).length ≤ 50) ∧
    (∀ (allPoints : List PointOfInterest) (lat lon r : ℝ)
        (c : PointCategory),
      (PreprocessedDataService.getNearbyPointsByCategory
        allPoints lat lon c r).length ≤ 30) ∧
    (∃ (allPoints : List PointOfInterest) (lat lon r : ℝ),
      50 < allPoints.length ∧
      allPoints.Forall (fun p => calculateDistance lat lon
        p.coordinates.latitude p.coordinates.longitude ≤ r) ∧
      (PreprocessedDataService.getNearbyPoints
        allPoints lat lon r).length = 50) := by
  refine ⟨?_, ?_, List.replicate 51 pA, 32, 35, 100, ?_, ?_, ?_⟩
  · intro allPoints lat lon r
    simpa [PreprocessedDataService.getNearbyPoints]
      using List.length_take_le 50 _
  · intro allPoints lat lon r c
    simpa [PreprocessedDataService.getNearbyPointsByCategory]
      using List.length_take_le 30 _
  · simp
  · rw [List.forall_iff_forall_mem]
    intro p hp
    rw [List.eq_of_mem_replicate hp]
    simp [pA, calculateDistance_self]
  · have hd : calculateDistance 32 35
        pA.coordinates.latitude pA.coordinates.longitude = 0 := by
      simp [pA, calculateDistance_self]
    rw [PreprocessedDataService.getNearbyPoints, List.map_replicate, hd]
    have hfilter : (List.replicate 51 (pA, (0 : ℝ))).filter
        (fun x => decide (x.2 ≤ 100)) = List.replicate 51 (pA, 0) := by
      rw [List.filter_eq_self]
      intro x hx
      rw [List.eq_of_mem_replicate hx]
      norm_num
    rw [hfilter, List.length_map, List.length_take,
      List.length_insertionSort, List.length_replicate]
    decide

/-- Witness for C9 with the one-point `historical` catalog `[pA]`
queried for `nature`. -/
theorem empty_result_not_error_witness :
    (∀ p ∈ [pA], p.category ≠ PointCategory.nature) ∧
    PreprocessedDataService.getNearbyPointsByCategory
      [pA] 32 35 PointCategory.nature 100 = [] :=
  ⟨by simp [pA], empty_result_not_error.2.2 [pA] 32 35 100
    PointCategory.nature (by simp [pA])⟩

/-! ### C3, C4, C5 -/

/-- C3. Arrival fires once per continuous stay: over any sequence of
location updates starting from a cleared triggered set, a catalog point
fires at step `i` iff it is within the 1000 m arrival radius at step
`i` and either `i` is the first step or the point was outside the
radius at step `i - 1` (one event per OUTSIDE→INSIDE entry, none while
remaining inside); and processing the same location again right after a
`checkStep` leaves the state unchanged and fires nothing. -/
theorem arrival_fires_once_per_entry (pts : List PointOfInterest)
    (huniq : pts.Pairwise (fun a b => a.id ≠ b.id)) :
    (∀ (locs : List (ℝ × ℝ)) (i : ℕ), i < locs.length → ∀ p ∈ pts,
      (p ∈ (LocationService.runSteps pts [] locs).getD i [] ↔
        LocationService.withinArrival (locs.getD i (0, 0)) p ∧
          (i = 0 ∨ ¬ LocationService.withinArrival
            (locs.getD (i - 1) (0, 0)) p))) ∧
    (∀ (lat lon : ℝ) (trig : List String),
      LocationService.checkStep pts lat lon
          (LocationService.checkStep pts lat lon trig).1 =
        ((LocationService.checkStep pts lat lon trig).1, [])) := by
  constructor
  · intro locs i hi p hp
    rw [runSteps_events_char pts huniq locs [] i hi p hp]
    by_cases h0 : i = 0
    · simp [h0]
    · simp [h0]
  · exact checkStep_idem pts

/-- Witness for C3: the one-point catalog `[pA]` has pairwise distinct
ids, and the theorem applies to it with the single update sequence
`[(32, 35)]` at index 0. -/
theorem arrival_fires_once_per_entry_witness :
    ([pA].Pairwise (fun a b => a.id ≠ b.id)) ∧
    ((∀ (locs : List (ℝ × ℝ)) (i : ℕ), i < locs.length → ∀ p ∈ [pA],
      (p ∈ (LocationService.runSteps [pA] [] locs).getD i [] ↔
        LocationService.withinArrival (locs.getD i (0, 0)) p ∧
          (i = 0 ∨ ¬ LocationService.withinArrival
            (locs.getD (i - 1) (0, 0)) p))) ∧
    (∀ (lat lon : ℝ) (trig : List String),
      LocationService.checkStep [pA] lat lon
          (LocationService.checkStep [pA] lat lon trig).1 =
        ((LocationService.checkStep [pA] lat lon trig).1, []))) :=
  ⟨by simp, arrival_fires_once_per_entry [pA] (by simp)⟩

/-- C4 (amended). Arrival-state invariant: after every processed
location update (callback installed; `onLocationUpdate` stores the
location, so it is present), an id is in the triggered set iff the user
is within the 1000 m arrival radius of a catalog point carrying that id
— entries for points left behind are removed, enabling re-trigger. The
set is cleared when tracking STARTS from a non-tracking state
(`stopLocationTracking` leaves the set untouched; see the
counterexample). -/
theorem triggered_set_invariant (pts : List PointOfInterest) :
    (∀ (s : LocationService.State) (loc : Location),
      s.hasCallback = true → ∀ id : String,
      (id ∈ ((LocationService.onLocationUpdate pts s loc).1).triggeredPoints
        ↔ ∃ p ∈ pts, p.id = id ∧
            calculateDistance loc.latitude loc.longitude
              p.latitude p.longitude ≤ 1000)) ∧
    (∀ s : LocationService.State, s.isTracking = false →
      (LocationService.startLocationTracking s).triggeredPoints = []) := by
  constructor
  · intro s loc hcb id
    simp only [LocationService.onLocationUpdate,
      LocationService.checkNearbyPoints, hcb]
    exact checkStep_fst_mem pts loc.latitude loc.longitude
      s.triggeredPoints id
  · intro s hs
    simp [LocationService.startLocationTracking, hs]

/-- Witness for C4 at a concrete tracking state and update. -/
theorem triggered_set_invariant_witness :
    (⟨true, true, none, []⟩ : LocationService.State).hasCallback = true ∧
    (∀ id : String,
      (id ∈ ((LocationService.onLocationUpdate [pA]
          ⟨true, true, none, []⟩ ⟨32, 35, none, none⟩).1).triggeredPoints
        ↔ ∃ p ∈ [pA], p.id = id ∧
            calculateDistance 32 35 p.latitude p.longitude ≤ 1000)) ∧
    ((⟨false, false, none, ["x"]⟩ : LocationService.State).isTracking
        = false ∧
      (LocationService.startLocationTracking
        ⟨false, false, none, ["x"]⟩).triggeredPoints = []) :=
  ⟨rfl, (triggered_set_invariant [pA]).1 ⟨true, true, none, []⟩
      ⟨32, 35, none, none⟩ rfl,
    rfl, (triggered_set_invariant [pA]).2 ⟨false, false, none, ["x"]⟩ rfl⟩

/-- C4 counterexample. `stopLocationTracking` does NOT clear the
triggered set: stopping from a state whose set holds `"a"` leaves the
set at `["a"]`, of length 1, not the empty set the claim requires (the
clear happens in `startLocationTracking` instead). -/
theorem stop_does_not_clear_triggered :
    (LocationService.stopLocationTracking
      ⟨true, true, none, ["a"]⟩).triggeredPoints = ["a"] ∧
    (LocationService.stopLocationTracking
      ⟨true, true, none, ["a"]⟩).triggeredPoints.length = 1 :=
  ⟨rfl, rfl⟩

/-- C5 (amended). The tracker rejects only a MISSING location or
callback: `checkNearbyPoints` then returns with no events and no state
change. Out-of-range coordinates are not validated anywhere; see the
counterexample. -/
theorem missing_location_no_state_change (pts : List PointOfInterest) :
    (∀ s : LocationService.State, s.currentLocation = none →
      LocationService.checkNearbyPoints pts s = (s, [])) ∧
    (∀ s : LocationService.State, s.hasCallback = false →
      LocationService.checkNearbyPoints pts s = (s, [])) := by
  constructor
  · intro s h
    simp [LocationService.checkNearbyPoints, h]
  · intro s h
    cases hc : s.currentLocation with
    | none => simp [LocationService.checkNearbyPoints, hc]
    | some loc => simp [LocationService.checkNearbyPoints, hc, h]

/-- Witness for C5 at a concrete state with no location. -/
theorem missing_location_no_state_change_witness :
    (⟨true, true, none, []⟩ : LocationService.State).currentLocation
        = none ∧
    LocationService.checkNearbyPoints [pA] ⟨true, true, none, []⟩
      = (⟨true, true, none, []⟩, []) :=
  ⟨rfl, (missing_location_no_state_change [pA]).1
    ⟨true, true, none, []⟩ rfl⟩

/-- C5 counterexample. Out-of-range coordinates are processed, not
rejected: a query at latitude 200 (beyond the +90 bound) returns a
non-empty result, and a tracker update at that location fires an
arrival event and mutates the triggered set. There is no
`InvalidInput` path. -/
theorem invalid_location_not_rejected :
    (90 : ℝ) < 200 ∧
    PreprocessedDataService.getNearbyPoints [pOut] 200 0 100 = [pOut] ∧
    ((LocationService.onLocationUpdate [pOut] ⟨true, true, none, []⟩
        ⟨200, 0, none, none⟩).1).triggeredPoints = ["p"] ∧
    (LocationService.onLocationUpdate [pOut] ⟨true, true, none, []⟩
        ⟨200, 0, none, none⟩).2 = [pOut] := by
  refine ⟨by norm_num, ?_, ?_, ?_⟩
  · norm_num [PreprocessedDataService.getNearbyPoints, pOut,
      calculateDistance_self, byDistance, List.filter_cons]
  · norm_num [LocationService.onLocationUpdate,
      LocationService.checkNearbyPoints, LocationService.checkStep,
      LocationService.fireLoop, pOut, calculateDistance_self,
      List.filter_cons]
  · norm_num [LocationService.onLocationUpdate,
      LocationService.checkNearbyPoints, LocationService.checkStep,
      LocationService.fireLoop, pOut, calculateDistance_self,
      List.filter_cons]

end AudioGuide
